import Mathlib

/-!
CORS handlers of `examples/apps/api-gateway-multiple-origin-cors/index.js`.

A shallow embedding of the two Lambda handlers `handleRoot` and `handleTest`
and of the `cors-util` helper module they call.

* JavaScript strings are Lean `String`s; the string algorithms work on the
  underlying character lists.
* A JavaScript object used as a header mapping is an association list in
  insertion order.
* A value that may be `undefined` is an `Option`.
* An `async` handler is modelled by the value its promise resolves to; a handler
  that falls off its end resolves to `undefined`, which is `none`.
-/

set_option autoImplicit false

namespace CorsExample

/-! ## Data model -/

/-- A header mapping: header name to header value, in insertion order. -/
abbrev Headers := List (String × String)

/-- The structured response handed back to API Gateway:
`{ statusCode, headers, body? }`. -/
structure Response where
  statusCode : Nat
  headers : Headers
  body : Option String := none
deriving DecidableEq, Repr

/-- The inbound event: the fields the handlers and the origin extraction read.
`httpMethod` is `none` when the field is absent. -/
structure Event where
  httpMethod : Option String
  headers : Headers
deriving DecidableEq, Repr

/-- The result of matching a request origin against an allowlist. -/
inductive Verdict where
  | allowed (origin : String)
  | notAllowed
deriving DecidableEq, Repr

/-- Name of the header that echoes the permitted origin. -/
def allowOriginKey : String := "Access-Control-Allow-Origin"

/-- Name of the header that lists the permitted methods. -/
def allowMethodsKey : String := "Access-Control-Allow-Methods"

/-- Whether a header mapping has an entry for `key`. -/
def hasKey (h : Headers) (key : String) : Bool :=
  h.any (fun p => p.1 == key)

/-- Property assignment `h[key] = value`: an existing key keeps its position and
gets the new value, a new key is appended. -/
def setHeader (h : Headers) (key value : String) : Headers :=
  if hasKey h key then h.map (fun p => if p.1 == key then (key, value) else p)
  else h ++ [(key, value)]

/-- The merge `Object.assign(target, source)`: every entry of `source` is assigned
into `target`, in order. -/
def assign (target source : Headers) : Headers :=
  source.foldl (fun acc p => setHeader acc p.1 p.2) target

/-! ## The helper module `cors-util` -/

namespace cors

/-- Modelled from the spec: the "exactly one non-empty inserted label" of the
Origin Matcher (in the missing `cors-util`): non-empty and without a dot. -/
def isLabel (l : List Char) : Bool :=
  !l.isEmpty && !l.contains '.'

/-- Modelled from the spec: the split of an origin pattern at its wildcard, part
of `cors-util`, which is missing from the sources. A pattern of the form
`scheme://*.domain` gives `some (scheme ++ "://", "." ++ domain)`, the text before
and after its first `*`; a pattern whose first `*` is not such a leading label
gives `none`. -/
def splitWildcard (pattern : List Char) : Option (List Char × List Char) :=
  let pre := pattern.takeWhile (fun c => c != '*')
  let suf := (pattern.dropWhile (fun c => c != '*')).drop 1
  if "://".data.isSuffixOf pre && ".".data.isPrefixOf suf then some (pre, suf) else none

/-- Modelled from the spec: the wildcard test of the Origin Matcher (in the
missing `cors-util`): the origin has the same scheme, ends with `.domain`, and
exactly one non-empty label stands in between. -/
def matchesWildcard (pre suf origin : List Char) : Bool :=
  pre.isPrefixOf origin &&
    (let rest := origin.drop pre.length
     suf.isSuffixOf rest && isLabel (rest.take (rest.length - suf.length)))

/-- Modelled from the spec: the per-pattern test of the Origin Matcher (in the
missing `cors-util`). A pattern without wildcard requires exact string equality;
a pattern `scheme://*.domain` requires the same scheme and a host that is
`domain` with exactly one non-empty label prepended. The spec gives no meaning
to any other use of `*`; such a pattern matches nothing. -/
def matchesPattern (origin pattern : String) : Bool :=
  if pattern.data.contains '*' then
    match splitWildcard pattern.data with
    | some (pre, suf) => matchesWildcard pre suf origin.data
    | none => false
  else origin == pattern

/-- Modelled from the spec: the scan of the allowlist by the Origin Matcher (in
the missing `cors-util`): patterns are tried in order and the first match
answers "allowed" with the literal origin. -/
def firstMatch (origin : String) : List String → Verdict
  | [] => Verdict.notAllowed
  | pattern :: rest =>
    if matchesPattern origin pattern then Verdict.allowed origin else firstMatch origin rest

/-- Modelled from the spec: `isOriginAllowed(origin, allowlist)`, the Origin
Matcher of the missing `cors-util`. An absent or empty origin is not allowed. -/
def isOriginAllowed (origin : Option String) (allowlist : List String) : Verdict :=
  match origin with
  | none => Verdict.notAllowed
  | some o => if o = "" then Verdict.notAllowed else firstMatch o allowlist

/-- Modelled from the spec: `buildOriginHeader(verdict)` of the missing
`cors-util`: the allow-origin header when allowed, the empty mapping otherwise. -/
def buildOriginHeader : Verdict → Headers
  | Verdict.allowed origin => [(allowOriginKey, origin)]
  | Verdict.notAllowed => []

/-- Modelled from the spec: `buildPreflightResponse(verdict, allowedMethods)` of
the missing `cors-util`: status 204, no body, and the origin header merged with
the allowed-methods header, whose value is the methods joined by `", "`. -/
def buildPreflightResponse (verdict : Verdict) (allowedMethods : List String) : Response :=
  { statusCode := 204
    headers := assign (buildOriginHeader verdict)
      [(allowMethodsKey, ", ".intercalate allowedMethods)]
    body := none }

/-- Modelled from the spec: the case-insensitive comparison of header names used
by the origin extraction of the missing `cors-util`; a name in lower case. -/
def lowerCase (name : String) : String :=
  String.mk (name.data.map Char.toLower)

/-- Modelled from the spec: `getOriginFromEvent(event)` of the missing
`cors-util`: the value of the event's `Origin` header, looked up without regard
to the case of the header name; `none` when the event carries no such header. -/
def getOriginFromEvent (event : Event) : Option String :=
  (event.headers.find? (fun h => lowerCase h.1 == "origin")).map Prod.snd

/-- Modelled from the spec: `createOriginHeader(origin, allowedOrigins)` of the
missing `cors-util`, the origin header for the verdict on `origin`. -/
def createOriginHeader (origin : Option String) (allowedOrigins : List String) : Headers :=
  buildOriginHeader (isOriginAllowed origin allowedOrigins)

/-- Modelled from the spec: `createPreflightResponse(origin, allowedOrigins,
allowedMethods)` of the missing `cors-util`, the preflight response for the
verdict on `origin`. -/
def createPreflightResponse (origin : Option String) (allowedOrigins allowedMethods : List String) :
    Response :=
  buildPreflightResponse (isOriginAllowed origin allowedOrigins) allowedMethods

end cors

/-- The interface of the module bound by `const cors = require("./cors-util")`:
the three functions the handlers call. -/
structure CorsUtil where
  getOriginFromEvent : Event → Option String
  createOriginHeader : Option String → List String → Headers
  createPreflightResponse : Option String → List String → List String → Response

/-- Modelled from the spec: the module `cors-util`, missing from the sources,
with the three functions as the specification describes them. -/
def corsUtil : CorsUtil where
  getOriginFromEvent := cors.getOriginFromEvent
  createOriginHeader := cors.createOriginHeader
  createPreflightResponse := cors.createPreflightResponse

/-! ## `index.js` -/

/-- The whitelist of allowed origins. -/
def allowedOrigins : List String :=
  ["http://127.0.0.1", "https://*.example.com", "https://*.amazon.com"]

/-- The endpoint that accepts GET requests: all CORS headers are included in the
response, whatever the method of the event. The module constant `cors` of
`index.js` is the first argument. -/
def handleRoot {κ : Type} (cors : CorsUtil) (event : Event) (_context : κ) : Response :=
  let origin := cors.getOriginFromEvent event
  let allowedMethods := ["GET"]
  cors.createPreflightResponse origin allowedOrigins allowedMethods

/-- The endpoint that accepts DELETE requests. `none` is the `undefined` the
handler resolves to when the method is neither `"OPTIONS"` nor `"DELETE"`. The
module constant `cors` of `index.js` is the first argument. -/
def handleTest {κ : Type} (cors : CorsUtil) (event : Event) (_context : κ) : Option Response :=
  let origin := cors.getOriginFromEvent event
  let allowedMethods := ["OPTIONS", "DELETE"]
  if event.httpMethod = some "OPTIONS" then
    some (cors.createPreflightResponse origin allowedOrigins allowedMethods)
  else if event.httpMethod = some "DELETE" then
    some { headers := cors.createOriginHeader origin allowedOrigins, statusCode := 204 }
  else
    none

/-- An event with the given method and a single `Origin` header. -/
def eventWith (method origin : String) : Event :=
  { httpMethod := some method, headers := [("Origin", origin)] }

/-- The statement about the allow-origin header of a response to `event`: the key
is there exactly when the event has a non-empty origin that matches a pattern of
the configured allowlist, and a value stored under the key is that origin. -/
def OriginHeaderCorrect (event : Event) (headers : Headers) : Prop :=
  (hasKey headers allowOriginKey = true ↔
    ∃ o, cors.getOriginFromEvent event = some o ∧ o ≠ "" ∧
      ∃ p ∈ allowedOrigins, cors.matchesPattern o p = true) ∧
  (∀ v, headers.lookup allowOriginKey = some v →
    cors.getOriginFromEvent event = some v ∧ v ≠ "")

/-! ## Helper lemmas -/

theorem firstMatch_eq (origin : String) (allowlist : List String) :
    cors.firstMatch origin allowlist =
      if allowlist.any (cors.matchesPattern origin) then Verdict.allowed origin
      else Verdict.notAllowed := by
  induction allowlist with
  | nil => rfl
  | cons p ps ih =>
    by_cases h : cors.matchesPattern origin p = true
    · simp [cors.firstMatch, h]
    · simp [cors.firstMatch, h, ih]

theorem isOriginAllowed_eq_allowed (origin : Option String) (allowlist : List String)
    (o : String) :
    cors.isOriginAllowed origin allowlist = Verdict.allowed o ↔
      origin = some o ∧ o ≠ "" ∧ ∃ p ∈ allowlist, cors.matchesPattern o p = true := by
  cases origin with
  | none => simp [cors.isOriginAllowed]
  | some x =>
    by_cases hx : x = ""
    · subst hx
      simp only [cors.isOriginAllowed, if_true, Option.some.injEq]
      constructor
      · intro h; cases h
      · rintro ⟨rfl, h, _⟩; exact absurd rfl h
    · simp only [cors.isOriginAllowed, hx, if_false, firstMatch_eq, Option.some.injEq]
      by_cases hm : allowlist.any (cors.matchesPattern x) = true
      · rw [if_pos hm]
        constructor
        · intro h
          cases h
          exact ⟨rfl, hx, by simpa using hm⟩
        · rintro ⟨rfl, _, _⟩; rfl
      · rw [if_neg hm]
        constructor
        · intro h; cases h
        · rintro ⟨rfl, _, hp⟩
          exact absurd (by simpa using hp) hm

theorem isOriginAllowed_cases (origin : Option String) (allowlist : List String) :
    cors.isOriginAllowed origin allowlist = Verdict.notAllowed ∨
      ∃ o, origin = some o ∧ cors.isOriginAllowed origin allowlist = Verdict.allowed o := by
  cases origin with
  | none => left; rfl
  | some x =>
    by_cases hx : x = ""
    · left; simp [cors.isOriginAllowed, hx]
    · simp only [cors.isOriginAllowed, hx, if_false, firstMatch_eq]
      by_cases hm : allowlist.any (cors.matchesPattern x) = true
      · right; exact ⟨x, rfl, by rw [if_pos hm]⟩
      · left; rw [if_neg hm]

theorem preflight_headers (verdict : Verdict) (allowedMethods : List String) :
    (cors.buildPreflightResponse verdict allowedMethods).headers =
      cors.buildOriginHeader verdict ++ [(allowMethodsKey, ", ".intercalate allowedMethods)] := by
  cases verdict with
  | allowed o =>
    have hk : (allowOriginKey == allowMethodsKey) = false := by decide
    simp [cors.buildPreflightResponse, cors.buildOriginHeader, assign, setHeader, hasKey, hk]
  | notAllowed =>
    simp [cors.buildPreflightResponse, cors.buildOriginHeader, assign, setHeader, hasKey]

theorem takeWhile_before_star (s r : List Char) (h : '*' ∉ s) :
    (s ++ '*' :: r).takeWhile (fun c => c != '*') = s := by
  induction s with
  | nil => simp
  | cons c cs ih =>
    have hc : c ≠ '*' := fun e => h (by simp [e])
    have hcs : '*' ∉ cs := fun e => h (by simp [e])
    have hb : (c != '*') = true := by simpa using hc
    rw [List.cons_append, List.takeWhile_cons, if_pos (by simpa using hb), ih hcs]

theorem dropWhile_before_star (s r : List Char) (h : '*' ∉ s) :
    (s ++ '*' :: r).dropWhile (fun c => c != '*') = '*' :: r := by
  induction s with
  | nil => simp
  | cons c cs ih =>
    have hc : c ≠ '*' := fun e => h (by simp [e])
    have hcs : '*' ∉ cs := fun e => h (by simp [e])
    have hb : (c != '*') = true := by simpa using hc
    rw [List.cons_append, List.dropWhile_cons, if_pos (by simpa using hb), ih hcs]

theorem matchesWildcard_iff (pre suf origin : List Char) :
    cors.matchesWildcard pre suf origin = true ↔
      ∃ l, cors.isLabel l = true ∧ origin = pre ++ l ++ suf := by
  constructor
  · intro h
    simp only [cors.matchesWildcard, Bool.and_eq_true, List.isPrefixOf_iff_prefix,
      List.isSuffixOf_iff_suffix] at h
    obtain ⟨⟨rest, hrest⟩, ⟨t, ht⟩, hl⟩ := h
    subst hrest
    rw [List.drop_left] at ht hl
    subst ht
    simp only [List.length_append, Nat.add_sub_cancel, List.take_left] at hl
    exact ⟨t, hl, by simp⟩
  · rintro ⟨l, hl, rfl⟩
    simp only [cors.matchesWildcard, Bool.and_eq_true, List.isPrefixOf_iff_prefix,
      List.isSuffixOf_iff_suffix]
    refine ⟨⟨l ++ suf, by simp⟩, ?_, ?_⟩
    · rw [List.append_assoc, List.drop_left]
      exact ⟨l, rfl⟩
    · rw [List.append_assoc, List.drop_left]
      simpa using hl

theorem wildcard_data (scheme domain : String) :
    (scheme ++ "://*." ++ domain).data =
      (scheme.data ++ [':', '/', '/']) ++ '*' :: ('.' :: domain.data) := by
  simp [String.data_append]

theorem splitWildcard_leading (scheme domain : List Char) (h : '*' ∉ scheme) :
    cors.splitWildcard ((scheme ++ [':', '/', '/']) ++ '*' :: ('.' :: domain)) =
      some (scheme ++ [':', '/', '/'], '.' :: domain) := by
  have hs : '*' ∉ scheme ++ [':', '/', '/'] := by
    simp only [List.mem_append, not_or]
    exact ⟨h, by decide⟩
  have hsuf : ([':', '/', '/'] : List Char).isSuffixOf (scheme ++ [':', '/', '/']) = true := by
    rw [List.isSuffixOf_iff_suffix]; exact ⟨scheme, rfl⟩
  have hdata : "://".data = [':', '/', '/'] := rfl
  have hdot : ".".data = ['.'] := rfl
  simp only [cors.splitWildcard, takeWhile_before_star _ _ hs, dropWhile_before_star _ _ hs,
    List.drop_succ_cons, List.drop_zero, hdata, hdot, hsuf, Bool.true_and]
  simp [List.isPrefixOf]

theorem matchesPattern_wildcard_iff (scheme domain origin : String) (h : '*' ∉ scheme.data) :
    cors.matchesPattern origin (scheme ++ "://*." ++ domain) = true ↔
      ∃ l, cors.isLabel l = true ∧
        origin.data = scheme.data ++ [':', '/', '/'] ++ l ++ '.' :: domain.data := by
  have hstar : (scheme ++ "://*." ++ domain).data.contains '*' = true := by
    rw [wildcard_data]; simp
  simp only [cors.matchesPattern, hstar, if_true]
  rw [wildcard_data, splitWildcard_leading _ _ h]
  exact matchesWildcard_iff _ _ _

theorem matchesPattern_exact_iff (origin pattern : String) (h : '*' ∉ pattern.data) :
    cors.matchesPattern origin pattern = true ↔ origin = pattern := by
  have hstar : ¬ (pattern.data.contains '*' = true) := by simpa using h
  rw [cors.matchesPattern, if_neg hstar]
  simp

theorem lookup_origin_header (verdict : Verdict) (tail : Headers)
    (ht : tail.lookup allowOriginKey = none) (v : String) :
    (cors.buildOriginHeader verdict ++ tail).lookup allowOriginKey = some v ↔
      verdict = Verdict.allowed v := by
  cases verdict with
  | allowed o => simp [cors.buildOriginHeader, List.lookup]
  | notAllowed => simp [cors.buildOriginHeader, ht]

theorem hasKey_origin_header (verdict : Verdict) (tail : Headers)
    (ht : hasKey tail allowOriginKey = false) :
    hasKey (cors.buildOriginHeader verdict ++ tail) allowOriginKey = true ↔
      ∃ o, verdict = Verdict.allowed o := by
  cases verdict with
  | allowed o => simp [cors.buildOriginHeader, hasKey]
  | notAllowed =>
    simp [cors.buildOriginHeader, ht]

theorem keys_differ : (allowOriginKey == allowMethodsKey) = false := by decide

theorem lookup_methods_header (verdict : Verdict) (value : String) :
    (cors.buildOriginHeader verdict ++ [(allowMethodsKey, value)]).lookup allowMethodsKey =
      some value := by
  have hk : (allowMethodsKey == allowOriginKey) = false := by decide
  cases verdict with
  | allowed o => simp [cors.buildOriginHeader, List.lookup, hk]
  | notAllowed => simp [cors.buildOriginHeader, List.lookup]

theorem origin_header_no_methods (verdict : Verdict) :
    hasKey (cors.buildOriginHeader verdict) allowMethodsKey = false ∧
      (cors.buildOriginHeader verdict).lookup allowMethodsKey = none := by
  have hk : (allowMethodsKey == allowOriginKey) = false := by decide
  cases verdict with
  | allowed o => simp [cors.buildOriginHeader, hasKey, List.lookup, hk, keys_differ]
  | notAllowed => simp [cors.buildOriginHeader, hasKey]

theorem join_options_delete : ", ".intercalate ["OPTIONS", "DELETE"] = "OPTIONS, DELETE" := by
  decide

theorem join_get : ", ".intercalate ["GET"] = "GET" := by decide

theorem originHeaderCorrect_of_tail (event : Event) (tail : Headers)
    (hk : hasKey tail allowOriginKey = false) (hl : tail.lookup allowOriginKey = none) :
    OriginHeaderCorrect event
      (cors.buildOriginHeader
        (cors.isOriginAllowed (cors.getOriginFromEvent event) allowedOrigins) ++ tail) := by
  constructor
  · rw [hasKey_origin_header _ _ hk]
    constructor
    · rintro ⟨o, ho⟩
      exact ⟨o, (isOriginAllowed_eq_allowed _ _ _).1 ho⟩
    · rintro ⟨o, ho⟩
      exact ⟨o, (isOriginAllowed_eq_allowed _ _ _).2 ho⟩
  · intro v hv
    rw [lookup_origin_header _ _ hl] at hv
    have := (isOriginAllowed_eq_allowed _ _ _).1 hv
    exact ⟨this.1, this.2.1⟩

theorem options_branch {κ : Type} (cors : CorsUtil) (event : Event) (context : κ)
    (h : event.httpMethod = some "OPTIONS") :
    handleTest cors event context =
      some (cors.createPreflightResponse (cors.getOriginFromEvent event) allowedOrigins
        ["OPTIONS", "DELETE"]) := by
  simp [handleTest, h]

theorem delete_branch {κ : Type} (cors : CorsUtil) (event : Event) (context : κ)
    (h : event.httpMethod = some "DELETE") :
    handleTest cors event context =
      some { headers := cors.createOriginHeader (cors.getOriginFromEvent event) allowedOrigins,
             statusCode := 204 } := by
  simp [handleTest, h]

/-! ## The handlers on the configured allowlist -/

/-- C1. On an event whose `httpMethod` is exactly `"OPTIONS"`, `handleTest` returns
the preflight response built from the event's origin, the configured allowlist
and the methods `["OPTIONS", "DELETE"]`: status 204, the allowed-methods header
`"OPTIONS, DELETE"`, and the allow-origin header with the origin whenever the
origin is allowed. -/
theorem handleTest_options {κ : Type} (event : Event) (context : κ)
    (h : event.httpMethod = some "OPTIONS") :
    handleTest corsUtil event context =
        some (cors.createPreflightResponse (cors.getOriginFromEvent event) allowedOrigins
          ["OPTIONS", "DELETE"]) ∧
      ∃ r, handleTest corsUtil event context = some r ∧ r.statusCode = 204 ∧
        r.headers.lookup allowMethodsKey = some "OPTIONS, DELETE" ∧
        ∀ o, cors.isOriginAllowed (cors.getOriginFromEvent event) allowedOrigins =
            Verdict.allowed o →
          cors.getOriginFromEvent event = some o ∧
            r.headers = [(allowOriginKey, o), (allowMethodsKey, "OPTIONS, DELETE")] := by
  have hr : handleTest corsUtil event context =
      some (cors.createPreflightResponse (cors.getOriginFromEvent event) allowedOrigins
        ["OPTIONS", "DELETE"]) := options_branch corsUtil event context h
  refine ⟨hr, _, hr, rfl, ?_, ?_⟩
  · rw [cors.createPreflightResponse, preflight_headers, lookup_methods_header,
      join_options_delete]
  · intro o ho
    refine ⟨((isOriginAllowed_eq_allowed _ _ _).1 ho).1, ?_⟩
    rw [cors.createPreflightResponse, preflight_headers, ho, join_options_delete]
    rfl

/-- C1, scenario 3: `OPTIONS` with origin `http://127.0.0.1`. -/
theorem handleTest_options_witness :
    (eventWith "OPTIONS" "http://127.0.0.1").httpMethod = some "OPTIONS" ∧
      handleTest corsUtil (eventWith "OPTIONS" "http://127.0.0.1") () =
        some { statusCode := 204
               headers := [("Access-Control-Allow-Origin", "http://127.0.0.1"),
                 ("Access-Control-Allow-Methods", "OPTIONS, DELETE")] } :=
  ⟨rfl, (handleTest_options (eventWith "OPTIONS" "http://127.0.0.1") () rfl).1.trans
    (by decide)⟩

/-- C2. On an event whose `httpMethod` is exactly `"DELETE"`, `handleTest` returns
status 204 with exactly the origin header mapping of the event's origin as
headers, and that mapping has no allowed-methods key. -/
theorem handleTest_delete {κ : Type} (event : Event) (context : κ)
    (h : event.httpMethod = some "DELETE") :
    handleTest corsUtil event context =
        some { statusCode := 204
               headers := cors.createOriginHeader (cors.getOriginFromEvent event)
                 allowedOrigins } ∧
      hasKey (cors.createOriginHeader (cors.getOriginFromEvent event) allowedOrigins)
        allowMethodsKey = false ∧
      (cors.createOriginHeader (cors.getOriginFromEvent event) allowedOrigins).lookup
        allowMethodsKey = none := by
  exact ⟨delete_branch corsUtil event context h, origin_header_no_methods _⟩

/-- C2, scenario 4: `DELETE` with origin `http://127.0.0.1`. -/
theorem handleTest_delete_witness :
    (eventWith "DELETE" "http://127.0.0.1").httpMethod = some "DELETE" ∧
      handleTest corsUtil (eventWith "DELETE" "http://127.0.0.1") () =
        some { statusCode := 204
               headers := [("Access-Control-Allow-Origin", "http://127.0.0.1")] } :=
  ⟨rfl, (handleTest_delete (eventWith "DELETE" "http://127.0.0.1") () rfl).1.trans
    (by decide)⟩

/-- C3. For every event, `handleRoot` returns the preflight response built from
the event's origin, the configured allowlist and the methods `["GET"]`, whatever
the event's method: status 204, the allowed-methods header `"GET"`, and the
allow-origin header with the origin whenever the origin is allowed. -/
theorem handleRoot_preflight {κ : Type} (event : Event) (context : κ) :
    handleRoot corsUtil event context =
        cors.createPreflightResponse (cors.getOriginFromEvent event) allowedOrigins ["GET"] ∧
      (handleRoot corsUtil event context).statusCode = 204 ∧
      (handleRoot corsUtil event context).headers.lookup allowMethodsKey = some "GET" ∧
      (∀ o, cors.isOriginAllowed (cors.getOriginFromEvent event) allowedOrigins =
          Verdict.allowed o →
        cors.getOriginFromEvent event = some o ∧
          (handleRoot corsUtil event context).headers =
            [(allowOriginKey, o), (allowMethodsKey, "GET")]) ∧
      ∀ method : Option String,
        handleRoot corsUtil { event with httpMethod := method } context =
          handleRoot corsUtil event context := by
  have hr : handleRoot corsUtil event context =
      cors.createPreflightResponse (cors.getOriginFromEvent event) allowedOrigins ["GET"] := rfl
  refine ⟨hr, rfl, ?_, ?_, fun _ => rfl⟩
  · rw [hr, cors.createPreflightResponse, preflight_headers, lookup_methods_header, join_get]
  · intro o ho
    refine ⟨((isOriginAllowed_eq_allowed _ _ _).1 ho).1, ?_⟩
    rw [hr, cors.createPreflightResponse, preflight_headers, ho, join_get]
    rfl

/-- C4 as stated fails: for the origin `https://evil.com`, which the configured
allowlist does not allow, the headers returned by `handleRoot` are not empty;
they hold the allowed-methods header. -/
theorem handleRoot_evil_headers_nonempty :
    cors.isOriginAllowed (cors.getOriginFromEvent (eventWith "GET" "https://evil.com"))
        allowedOrigins = Verdict.notAllowed ∧
      (handleRoot corsUtil (eventWith "GET" "https://evil.com") ()).statusCode = 204 ∧
      (handleRoot corsUtil (eventWith "GET" "https://evil.com") ()).headers =
        [("Access-Control-Allow-Methods", "GET")] ∧
      (handleRoot corsUtil (eventWith "GET" "https://evil.com") ()).headers ≠ [] := by
  decide

/-- C4, amended. For every event whose origin is not allowed, `handleRoot` returns
status 204 and headers that consist of the allowed-methods header `"GET"` alone:
there is no allow-origin key. -/
theorem handleRoot_not_allowed {κ : Type} (event : Event) (context : κ)
    (h : cors.isOriginAllowed (cors.getOriginFromEvent event) allowedOrigins =
      Verdict.notAllowed) :
    handleRoot corsUtil event context =
        { statusCode := 204, headers := [(allowMethodsKey, "GET")] } ∧
      hasKey (handleRoot corsUtil event context).headers allowOriginKey = false := by
  have hr : handleRoot corsUtil event context =
      { statusCode := 204, headers := [(allowMethodsKey, "GET")] } := by
    show cors.buildPreflightResponse
      (cors.isOriginAllowed (cors.getOriginFromEvent event) allowedOrigins) ["GET"] = _
    rw [h]
    decide
  refine ⟨hr, ?_⟩
  rw [hr]
  decide

/-- C4, amended, at the origin `https://evil.com` of scenario 2. -/
theorem handleRoot_not_allowed_witness :
    cors.isOriginAllowed (cors.getOriginFromEvent (eventWith "GET" "https://evil.com"))
        allowedOrigins = Verdict.notAllowed ∧
      handleRoot corsUtil (eventWith "GET" "https://evil.com") () =
        { statusCode := 204, headers := [(allowMethodsKey, "GET")] } :=
  ⟨by decide, (handleRoot_not_allowed (eventWith "GET" "https://evil.com") () (by decide)).1⟩

/-- C5. For every event, the headers returned by `handleRoot`, and those returned
by `handleTest` on `OPTIONS` or `DELETE`, have the allow-origin key if and only if
the event has a non-empty origin that matches the configured allowlist, and a
value under that key is the request origin, never empty or absent. -/
theorem origin_header_iff_allowed {κ : Type} (event : Event) (context : κ) :
    OriginHeaderCorrect event (handleRoot corsUtil event context).headers ∧
      ((event.httpMethod = some "OPTIONS" ∨ event.httpMethod = some "DELETE") →
        ∃ r, handleTest corsUtil event context = some r ∧
          OriginHeaderCorrect event r.headers) := by
  have hpre : ∀ methods : List String, OriginHeaderCorrect event
      (cors.createPreflightResponse (cors.getOriginFromEvent event) allowedOrigins
        methods).headers := by
    intro methods
    rw [cors.createPreflightResponse, preflight_headers]
    refine originHeaderCorrect_of_tail event _ ?_ ?_
    · simp [hasKey]; decide
    · simp [List.lookup, keys_differ]
  refine ⟨hpre _, ?_⟩
  rintro (h | h)
  · exact ⟨_, options_branch corsUtil event context h, hpre _⟩
  · refine ⟨_, delete_branch corsUtil event context h, ?_⟩
    have := originHeaderCorrect_of_tail event [] rfl rfl
    simpa [cors.createOriginHeader] using this

/-- C5 at concrete events: an allowed origin is echoed, an event without origin
header and an event with an empty origin get no allow-origin key. -/
theorem origin_header_iff_allowed_witness :
    (eventWith "DELETE" "http://127.0.0.1").httpMethod = some "DELETE" ∧
      OriginHeaderCorrect (eventWith "DELETE" "http://127.0.0.1")
        (handleRoot corsUtil (eventWith "DELETE" "http://127.0.0.1") ()).headers ∧
      (∃ r, handleTest corsUtil (eventWith "DELETE" "http://127.0.0.1") () = some r ∧
        OriginHeaderCorrect (eventWith "DELETE" "http://127.0.0.1") r.headers) ∧
      hasKey (handleRoot corsUtil { httpMethod := some "GET", headers := [] } ()).headers
        allowOriginKey = false ∧
      hasKey (handleRoot corsUtil (eventWith "GET" "") ()).headers allowOriginKey = false :=
  ⟨rfl, (origin_header_iff_allowed (eventWith "DELETE" "http://127.0.0.1") ()).1,
    (origin_header_iff_allowed (eventWith "DELETE" "http://127.0.0.1") ()).2 (Or.inr rfl),
    by decide, by decide⟩

/-! ## The origin matcher -/

/-- C6. For a wildcard pattern `scheme://*.domain` (its only wildcard being the
leading label: the scheme holds no `*`), an origin `scheme://sub.domain` whose
`sub` is one non-empty label matches the pattern and is allowed, with itself
as echoed origin, by every allowlist that contains the pattern; `scheme://domain`
and `scheme://a.b.domain` do not match the pattern. On the configured allowlist
`https://api.example.com` is allowed and echoed back by the DELETE response, and
`https://example.com` and `https://a.b.example.com` are not allowed. -/
theorem wildcard_single_label (scheme domain sub : String) (hs : '*' ∉ scheme.data)
    (hl : cors.isLabel sub.data = true) :
    cors.matchesPattern (scheme ++ "://" ++ sub ++ "." ++ domain)
        (scheme ++ "://*." ++ domain) = true ∧
      (∀ allowlist : List String, (scheme ++ "://*." ++ domain) ∈ allowlist →
        cors.isOriginAllowed (some (scheme ++ "://" ++ sub ++ "." ++ domain)) allowlist =
          Verdict.allowed (scheme ++ "://" ++ sub ++ "." ++ domain)) ∧
      cors.matchesPattern (scheme ++ "://" ++ domain) (scheme ++ "://*." ++ domain) = false ∧
      (∀ a b : String,
        cors.matchesPattern (scheme ++ "://" ++ a ++ "." ++ b ++ "." ++ domain)
          (scheme ++ "://*." ++ domain) = false) ∧
      cors.isOriginAllowed (some "https://api.example.com") allowedOrigins =
        Verdict.allowed "https://api.example.com" ∧
      handleTest corsUtil (eventWith "DELETE" "https://api.example.com") () =
        some { statusCode := 204
               headers := [("Access-Control-Allow-Origin", "https://api.example.com")] } ∧
      cors.isOriginAllowed (some "https://example.com") allowedOrigins = Verdict.notAllowed ∧
      cors.isOriginAllowed (some "https://a.b.example.com") allowedOrigins =
        Verdict.notAllowed := by
  have hpos : cors.matchesPattern (scheme ++ "://" ++ sub ++ "." ++ domain)
      (scheme ++ "://*." ++ domain) = true := by
    rw [matchesPattern_wildcard_iff _ _ _ hs]
    exact ⟨sub.data, hl, by simp [String.data_append]⟩
  refine ⟨hpos, ?_, ?_, ?_, by decide, by decide, by decide, by decide⟩
  · intro allowlist hmem
    rw [isOriginAllowed_eq_allowed]
    refine ⟨rfl, ?_, _, hmem, hpos⟩
    intro h
    have hd := congrArg String.data h
    simp [String.data_append] at hd
  · rw [Bool.eq_false_iff]
    intro h
    rw [matchesPattern_wildcard_iff _ _ _ hs] at h
    obtain ⟨l, _, hl⟩ := h
    have hlen := congrArg List.length hl
    simp [String.data_append] at hlen
    omega
  · intro a b
    rw [Bool.eq_false_iff]
    intro h
    rw [matchesPattern_wildcard_iff _ _ _ hs] at h
    obtain ⟨l, hlab, hl⟩ := h
    have hd : a.data ++ '.' :: b.data = l := by
      have h2 : scheme.data ++ [':', '/', '/'] ++ (a.data ++ '.' :: b.data) ++ '.' :: domain.data =
          scheme.data ++ [':', '/', '/'] ++ l ++ '.' :: domain.data := by
        rw [← hl]; simp [String.data_append]
      exact List.append_cancel_left (List.append_cancel_right h2)
    subst hd
    simp [cors.isLabel] at hlab

/-- C6 at the pattern `https://*.example.com` with the label `api`. -/
theorem wildcard_single_label_witness :
    '*' ∉ "https".data ∧ cors.isLabel "api".data = true ∧
      cors.matchesPattern ("https" ++ "://" ++ "api" ++ "." ++ "example.com")
        ("https" ++ "://*." ++ "example.com") = true ∧
      cors.matchesPattern ("https" ++ "://" ++ "example.com")
        ("https" ++ "://*." ++ "example.com") = false :=
  ⟨by decide, by decide,
    (wildcard_single_label "https" "example.com" "api" (by decide) (by decide)).1,
    (wildcard_single_label "https" "example.com" "api" (by decide) (by decide)).2.2.1⟩

/-- C7 as stated fails twice. The configured allowlist has the form `[P, ...]` for
the wildcard-free `P = "http://127.0.0.1"`, and it allows the origin
`https://api.example.com`, which differs from `P`, through a later pattern. And for
the wildcard-free pattern `""` the origin `""` equals the pattern and is not
allowed, the empty origin being rejected before any pattern is tried. -/
theorem exact_pattern_head_counterexample :
    '*' ∉ "http://127.0.0.1".data ∧
      allowedOrigins = "http://127.0.0.1" :: ["https://*.example.com", "https://*.amazon.com"] ∧
      cors.isOriginAllowed (some "https://api.example.com") allowedOrigins =
        Verdict.allowed "https://api.example.com" ∧
      "https://api.example.com" ≠ "http://127.0.0.1" ∧
      '*' ∉ "".data ∧ cors.isOriginAllowed (some "") [""] = Verdict.notAllowed := by
  decide

/-- C7, amended. For a wildcard-free pattern `P` and any origin `O`, the test of
`O` against `P` succeeds exactly when `O = P`, with no normalisation. Hence
matching `O` against `[P]` answers "allowed" with echoed origin `O` exactly when
`O` is non-empty and equal to `P`, and against `P :: rest` exactly when `O` is
non-empty and either equals `P` or is allowed by `rest`. -/
theorem exact_pattern_iff (pattern origin : String) (rest : List String)
    (h : '*' ∉ pattern.data) :
    (cors.matchesPattern origin pattern = true ↔ origin = pattern) ∧
      (cors.isOriginAllowed (some origin) [pattern] = Verdict.allowed origin ↔
        origin ≠ "" ∧ origin = pattern) ∧
      (cors.isOriginAllowed (some origin) (pattern :: rest) = Verdict.allowed origin ↔
        origin ≠ "" ∧
          (origin = pattern ∨
            cors.isOriginAllowed (some origin) rest = Verdict.allowed origin)) := by
  have hm := matchesPattern_exact_iff origin pattern h
  refine ⟨hm, ?_, ?_⟩
  · rw [isOriginAllowed_eq_allowed]
    simp [hm]
  · rw [isOriginAllowed_eq_allowed, isOriginAllowed_eq_allowed]
    simp only [List.mem_cons, exists_eq_or_imp, hm, true_and]
    constructor
    · rintro ⟨h0, h1 | h1⟩
      · exact ⟨h0, Or.inl h1⟩
      · exact ⟨h0, Or.inr ⟨h0, h1⟩⟩
    · rintro ⟨h0, h1 | ⟨_, h1⟩⟩
      · exact ⟨h0, Or.inl h1⟩
      · exact ⟨h0, Or.inr h1⟩

/-- C7, amended, at the pattern `http://127.0.0.1` of the configured allowlist:
the origin itself is allowed; another case, a port and a trailing slash are not. -/
theorem exact_pattern_iff_witness :
    '*' ∉ "http://127.0.0.1".data ∧
      (cors.isOriginAllowed (some "http://127.0.0.1") ["http://127.0.0.1"] =
          Verdict.allowed "http://127.0.0.1" ↔
        "http://127.0.0.1" ≠ "" ∧ "http://127.0.0.1" = "http://127.0.0.1") ∧
      cors.isOriginAllowed (some "http://127.0.0.1") allowedOrigins =
        Verdict.allowed "http://127.0.0.1" ∧
      cors.isOriginAllowed (some "HTTP://127.0.0.1") allowedOrigins = Verdict.notAllowed ∧
      cors.isOriginAllowed (some "http://127.0.0.1:80") allowedOrigins = Verdict.notAllowed ∧
      cors.isOriginAllowed (some "http://127.0.0.1/") allowedOrigins = Verdict.notAllowed :=
  ⟨by decide, (exact_pattern_iff "http://127.0.0.1" "http://127.0.0.1" [] (by decide)).2.1,
    by decide, by decide, by decide, by decide⟩

/-! ## Properties of every response -/

/-- C8. For every event, whatever its method, the response of `handleRoot` has
status code 204; every response returned by `handleTest` has status code 204, and
on `OPTIONS` and on `DELETE` there is such a response. -/
theorem status_always_204 {κ : Type} (event : Event) (context : κ) :
    (handleRoot corsUtil event context).statusCode = 204 ∧
      (∀ r : Response, handleTest corsUtil event context = some r → r.statusCode = 204) ∧
      ((event.httpMethod = some "OPTIONS" ∨ event.httpMethod = some "DELETE") →
        ∃ r, handleTest corsUtil event context = some r ∧ r.statusCode = 204) := by
  have hall : ∀ r : Response, handleTest corsUtil event context = some r →
      r.statusCode = 204 := by
    intro r h
    unfold handleTest at h
    split at h
    · cases h; rfl
    · split at h
      · cases h; rfl
      · cases h
  refine ⟨rfl, hall, ?_⟩
  rintro (h | h)
  · exact ⟨_, options_branch corsUtil event context h,
      hall _ (options_branch corsUtil event context h)⟩
  · exact ⟨_, delete_branch corsUtil event context h,
      hall _ (delete_branch corsUtil event context h)⟩

/-- C8 at a `GET` event for `handleRoot` and at `DELETE` and `OPTIONS` events with a
rejected origin for `handleTest`. -/
theorem status_always_204_witness :
    (handleRoot corsUtil (eventWith "GET" "https://evil.com") ()).statusCode = 204 ∧
      (handleRoot corsUtil { httpMethod := none, headers := [] } ()).statusCode = 204 ∧
      handleTest corsUtil (eventWith "DELETE" "https://evil.com") () =
        some { statusCode := 204, headers := [] } ∧
      ({ statusCode := 204, headers := [] } : Response).statusCode = 204 ∧
      ∃ r, handleTest corsUtil (eventWith "OPTIONS" "https://evil.com") () = some r ∧
        r.statusCode = 204 :=
  ⟨(status_always_204 (eventWith "GET" "https://evil.com") ()).1,
    (status_always_204 { httpMethod := none, headers := [] } ()).1,
    by decide,
    (status_always_204 (eventWith "DELETE" "https://evil.com") ()).2.1
      { statusCode := 204, headers := [] } (by decide),
    (status_always_204 (eventWith "OPTIONS" "https://evil.com") ()).2.2 (Or.inl rfl)⟩

/-- C9. Whatever the helper module, `handleTest` returns a response if and only if
the event's `httpMethod` is exactly `"OPTIONS"` or exactly `"DELETE"`; with any
other method, an absent one or `"delete"` among them, it returns nothing. -/
theorem handleTest_responds_iff {κ : Type} (cors : CorsUtil) (event : Event) (context : κ) :
    ((∃ r, handleTest cors event context = some r) ↔
        (event.httpMethod = some "OPTIONS" ∨ event.httpMethod = some "DELETE")) ∧
      (¬ (event.httpMethod = some "OPTIONS" ∨ event.httpMethod = some "DELETE") →
        handleTest cors event context = none) ∧
      handleTest cors { event with httpMethod := none } context = none ∧
      handleTest cors { event with httpMethod := some "delete" } context = none ∧
      handleTest cors { event with httpMethod := some "options" } context = none ∧
      handleTest cors { event with httpMethod := some "GET" } context = none := by
  have hnone : ¬ (event.httpMethod = some "OPTIONS" ∨ event.httpMethod = some "DELETE") →
      handleTest cors event context = none := by
    intro h
    rw [not_or] at h
    simp [handleTest, h.1, h.2]
  refine ⟨⟨?_, ?_⟩, hnone, ?_, ?_, ?_, ?_⟩
  · rintro ⟨r, hr⟩
    by_contra hc
    rw [hnone hc] at hr
    cases hr
  · rintro (h | h)
    · exact ⟨cors.createPreflightResponse (cors.getOriginFromEvent event) allowedOrigins
        ["OPTIONS", "DELETE"], by simp [handleTest, h]⟩
    · exact ⟨{ headers := cors.createOriginHeader (cors.getOriginFromEvent event) allowedOrigins,
               statusCode := 204 }, by simp [handleTest, h]⟩
  all_goals simp [handleTest]

/-- C9 on the helper module of the specification: a lower-case `delete` and an
absent method give nothing, `DELETE` gives a response. -/
theorem handleTest_responds_iff_witness :
    handleTest corsUtil (eventWith "delete" "http://127.0.0.1") () = none ∧
      handleTest corsUtil { httpMethod := none, headers := [] } () = none ∧
      ∃ r, handleTest corsUtil (eventWith "DELETE" "http://127.0.0.1") () = some r :=
  ⟨by decide, by decide,
    (handleTest_responds_iff corsUtil (eventWith "DELETE" "http://127.0.0.1") ()).1.2
      (Or.inr rfl)⟩

/-- C10. Whatever the helper module, two events with the same extracted origin get
the same response from `handleRoot`, for any two contexts and any two methods; if
the events also have the same `httpMethod`, they get the same result from
`handleTest`. -/
theorem handlers_depend_on_origin_and_method {κ₁ κ₂ : Type} (cors : CorsUtil)
    (event₁ event₂ : Event) (context₁ : κ₁) (context₂ : κ₂)
    (h : cors.getOriginFromEvent event₁ = cors.getOriginFromEvent event₂) :
    handleRoot cors event₁ context₁ = handleRoot cors event₂ context₂ ∧
      (event₁.httpMethod = event₂.httpMethod →
        handleTest cors event₁ context₁ = handleTest cors event₂ context₂) := by
  refine ⟨?_, ?_⟩
  · simp only [handleRoot, h]
  · intro hm
    simp only [handleTest, h, hm]

/-- C10 at two events that differ in method, header spelling and further headers,
and at two contexts of different types. -/
theorem handlers_depend_on_origin_and_method_witness :
    corsUtil.getOriginFromEvent (eventWith "GET" "http://127.0.0.1") =
        corsUtil.getOriginFromEvent
          { httpMethod := some "DELETE"
            headers := [("X-Request-Id", "7"), ("origin", "http://127.0.0.1")] } ∧
      handleRoot corsUtil (eventWith "GET" "http://127.0.0.1") () =
        handleRoot corsUtil
          { httpMethod := some "DELETE"
            headers := [("X-Request-Id", "7"), ("origin", "http://127.0.0.1")] } (5 : Nat) :=
  ⟨by decide,
    (handlers_depend_on_origin_and_method corsUtil (eventWith "GET" "http://127.0.0.1")
      { httpMethod := some "DELETE"
        headers := [("X-Request-Id", "7"), ("origin", "http://127.0.0.1")] } () (5 : Nat)
      (by decide)).1⟩

end CorsExample
